import Mathlib

/-! Verification of the quiz cache-or-generate flow of the SkillSage backend
(`backend/src/routes/quiz.ts` and `backend/src/index.ts`).

The handler `generateQuizHandler` is embedded shallowly: each Supabase call
becomes a pure function of an explicit `Store` value plus an injectable
failure outcome, the OpenAI call becomes an injectable optional text
response, and JavaScript strings become `List Char`.  `JSON.parse` is
embedded as a fuel-indexed recursive-descent parser over the JSON value
grammar (null, booleans, integer numbers, strings, arrays, objects).
-/

set_option maxRecDepth 100000

namespace SkillSage

/-- Convert a Lean string literal to the character-list representation used
throughout this development. -/
def strL (s : String) : List Char := s.toList

/-- Whitespace test matching the JavaScript regex class backslash-s and
`String.prototype.trim` on the ASCII range. -/
def isWsChar (c : Char) : Bool :=
  c = ' ' || c = '\t' || c = '\n' || c = '\r' || c = '\x0b' || c = '\x0c'

/-- JavaScript `String.prototype.trim`: drop whitespace from both ends. -/
def jsTrim (l : List Char) : List Char :=
  (l.dropWhile isWsChar).rdropWhile isWsChar

/-- The backquote character, written via its code point. -/
def bq : Char := Char.ofNat 96

/-- The three-character code fence. -/
def fence3 : List Char := [bq, bq, bq]

/-- The seven characters of a lowercase json-tagged opening fence. -/
def fenceJsonTag : List Char := fence3 ++ ['j', 's', 'o', 'n']

/-- Line 114 of quiz.ts: `.replace(/^```json\s*/i, '')` — if the text starts
with a json-tagged fence (case-insensitive), remove it together with the
whitespace that follows it; otherwise leave the text unchanged. -/
def stripLeadingJsonFence (l : List Char) : List Char :=
  if (l.take 7).map Char.toLower = fenceJsonTag then
    (l.drop 7).dropWhile isWsChar
  else l

/-- Line 115 of quiz.ts: `.replace(/```$/, '')` — if the text ends with a
bare triple-backquote fence, remove those three characters. -/
def stripTrailingFence (l : List Char) : List Char :=
  if l.reverse.take 3 = fence3 then (l.reverse.drop 3).reverse else l

/-- Lines 113–116 of quiz.ts applied to the already-trimmed raw response:
strip a leading json-tagged fence, strip a trailing fence, trim again. -/
def cleanedResponse (rawTrimmed : List Char) : List Char :=
  jsTrim (stripTrailingFence (stripLeadingJsonFence rawTrimmed))

/-- JSON values, as produced by `JSON.parse` (numbers restricted to
integers, which covers every input considered in this development). -/
inductive Json where
  | null : Json
  | bool (b : Bool) : Json
  | num (n : Int) : Json
  | str (s : List Char) : Json
  | arr (elems : List Json) : Json
  | obj (fields : List (List Char × Json)) : Json

/-- Skip JSON whitespace. -/
def skipWs (l : List Char) : List Char := l.dropWhile isWsChar

/-- Translate a JSON string escape character. -/
def unescapeChar (c : Char) : Option Char :=
  if c = '"' then some '"'
  else if c = '\\' then some '\\'
  else if c = '/' then some '/'
  else if c = 'n' then some '\n'
  else if c = 't' then some '\t'
  else if c = 'r' then some '\r'
  else if c = 'b' then some '\x08'
  else if c = 'f' then some '\x0c'
  else none

/-- Parse the body of a JSON string after the opening quote, returning the
string contents and the input after the closing quote. -/
def parseStringBody : List Char → Option (List Char × List Char)
  | [] => none
  | '\\' :: c :: rest =>
    match unescapeChar c with
    | some e =>
      match parseStringBody rest with
      | some (s, r) => some (e :: s, r)
      | none => none
    | none => none
  | '"' :: rest => some ([], rest)
  | c :: rest =>
    match parseStringBody rest with
    | some (s, r) => some (c :: s, r)
    | none => none

/-- Accumulate a run of decimal digits. -/
def digitsLoop (acc : Nat) : List Char → Nat × List Char
  | [] => (acc, [])
  | c :: rest =>
    if c.isDigit then digitsLoop (acc * 10 + (c.toNat - 48)) rest
    else (acc, c :: rest)

mutual

/-- Parse one JSON value (fuel-indexed recursive descent). -/
def parseVal : Nat → List Char → Option (Json × List Char)
  | 0, _ => none
  | f + 1, l =>
    match skipWs l with
    | [] => none
    | c :: rest =>
      if c = 'n' then
        match rest with
        | 'u' :: 'l' :: 'l' :: r => some (Json.null, r)
        | _ => none
      else if c = 't' then
        match rest with
        | 'r' :: 'u' :: 'e' :: r => some (Json.bool true, r)
        | _ => none
      else if c = 'f' then
        match rest with
        | 'a' :: 'l' :: 's' :: 'e' :: r => some (Json.bool false, r)
        | _ => none
      else if c = '"' then
        match parseStringBody rest with
        | some (s, r) => some (Json.str s, r)
        | none => none
      else if c = '\x7b' then
        match skipWs rest with
        | c' :: r' =>
          if c' = '\x7d' then some (Json.obj [], r')
          else parseFields f (c' :: r') []
        | [] => none
      else if c = '[' then
        match skipWs rest with
        | c' :: r' =>
          if c' = ']' then some (Json.arr [], r')
          else parseElems f (c' :: r') []
        | [] => none
      else if c = '-' then
        match rest with
        | d :: r =>
          if d.isDigit then
            let (n, r') := digitsLoop (d.toNat - 48) r
            some (Json.num (-(n : Int)), r')
          else none
        | [] => none
      else if c.isDigit then
        let (n, r') := digitsLoop (c.toNat - 48) rest
        some (Json.num (n : Int), r')
      else none

/-- Parse the remaining elements of a JSON array (accumulator holds the
elements already read, in reverse). -/
def parseElems : Nat → List Char → List Json → Option (Json × List Char)
  | 0, _, _ => none
  | f + 1, l, acc =>
    match parseVal f l with
    | none => none
    | some (v, rest) =>
      match skipWs rest with
      | ',' :: r => parseElems f r (v :: acc)
      | ']' :: r => some (Json.arr (v :: acc).reverse, r)
      | _ => none

/-- Parse the remaining members of a JSON object (accumulator holds the
members already read, in reverse). -/
def parseFields : Nat → List Char → List (List Char × Json) → Option (Json × List Char)
  | 0, _, _ => none
  | f + 1, l, acc =>
    match skipWs l with
    | '"' :: rest =>
      match parseStringBody rest with
      | some (k, r) =>
        match skipWs r with
        | ':' :: r' =>
          match parseVal f r' with
          | some (v, r'') =>
            match skipWs r'' with
            | ',' :: r3 => parseFields f r3 ((k, v) :: acc)
            | '\x7d' :: r3 => some (Json.obj ((k, v) :: acc).reverse, r3)
            | _ => none
          | none => none
        | _ => none
      | none => none
    | _ => none

end

/-- Embedding of `JSON.parse`: parse one value and require that only
whitespace remains. -/
def parseJson (l : List Char) : Option Json :=
  match parseVal (2 * l.length + 2) l with
  | some (v, rest) => if skipWs rest = [] then some v else none
  | none => none

/-- Error object returned by a failing Supabase call (`code`, `message`). -/
structure DbError where
  code : List Char
  message : List Char
deriving DecidableEq

/-- Row of the `quizzes` table. -/
structure QuizRow where
  id : Nat
  domain : List Char
  title : List Char
deriving DecidableEq

/-- Row of the `quiz_questions` table.  The `question`, `options` and
`correct_answer` columns hold whatever JSON values the handler inserted;
`none` models a JavaScript `undefined` field (the entry was missing from
the parsed model output). -/
structure QuestionRow where
  id : Nat
  quiz_id : Nat
  question : Option Json
  options : Option Json
  correct_answer : Option Json
  question_order : Nat

/-- The remote store: both tables plus the id sequence. -/
structure Store where
  quizzes : List QuizRow
  quiz_questions : List QuestionRow
  nextId : Nat

/-- Projection of a question row returned by
`select('id, question, options, correct_answer, question_order')`. -/
structure QuestionOut where
  id : Nat
  question : Option Json
  options : Option Json
  correct_answer : Option Json
  question_order : Nat

/-- HTTP responses the handler can send: 400 with a message, 500 with a
message and an optional error detail, or 200 with a question array. -/
inductive Response where
  | badRequest (message : List Char) : Response
  | serverError (message : List Char) (error : Option (List Char)) : Response
  | ok (body : List QuestionOut) : Response

/-- Result of one handler execution: the response sent, the store it left
behind, and how many model calls and store calls it performed. -/
structure RunResult where
  response : Response
  store : Store
  modelCalls : Nat
  dbCalls : Nat

/-- Fault-injection environment for one request: the query parameter, the
initial store, an optional injected failure for each of the six Supabase
calls the handler can make, the model response text, and NODE_ENV (which
`generateQuizHandler` itself never reads). -/
structure Env where
  domain : Option (List Char)
  store : Store
  quizLookupErr : Option DbError
  quizInsertErr : Option DbError
  questionCheckErr : Option DbError
  questionFetchErr : Option DbError
  questionInsertErr : Option DbError
  insertedFetchErr : Option DbError
  modelContent : Option (List Char)
  nodeEnv : List Char

/-- Lines 170–187 of quiz.ts: map a domain key to a display title. -/
def getDomainTitle (domain : List Char) : List Char :=
  if domain = strL "web-development" then strL "Web Development Quiz"
  else if domain = strL "data-science" then strL "Data Science Quiz"
  else if domain = strL "backend" then strL "Backend Development Quiz"
  else if domain = strL "ai-ml" then strL "AI / ML Quiz"
  else if domain = strL "networking" then strL "Computer Networking Quiz"
  else if domain = strL "algorithms" then strL "Algorithms & Data Structures Quiz"
  else strL "Skill Assessment Quiz"

/-- Rows of `quizzes` matching a domain. -/
def quizMatches (s : Store) (d : List Char) : List QuizRow :=
  s.quizzes.filter (fun q => q.domain = d)

/-- Rows of `quiz_questions` belonging to a quiz. -/
def questionsFor (s : Store) (qid : Nat) : List QuestionRow :=
  s.quiz_questions.filter (fun r => r.quiz_id = qid)

/-- The select of lines 65–69 / 149–153: rows of the quiz ordered by
`question_order` ascending, projected to the selected columns. -/
def selectOrdered (s : Store) (qid : Nat) : List QuestionOut :=
  ((questionsFor s qid).insertionSort
      (fun a b => a.question_order ≤ b.question_order)).map
    (fun r => ⟨r.id, r.question, r.options, r.correct_answer, r.question_order⟩)

/-- Lines 26–52 of quiz.ts: look up the quiz row by domain with
`.single()` (a miss is the distinguishable PGRST116 error), treat any
other lookup error as thrown, and create the quiz row on a miss.  Returns
the thrown message or the quiz id, the store afterwards, and the number of
store calls made. -/
def resolveQuiz (s : Store) (d : List Char)
    (lookupErr createErr : Option DbError) :
    Except (List Char) Nat × Store × Nat :=
  match (match lookupErr with
         | some e => Except.error e
         | none =>
           match quizMatches s d with
           | [q] => Except.ok q
           | _ => Except.error
               (⟨strL "PGRST116",
                 strL "JSON object requested, multiple (or no) rows returned"⟩ : DbError)) with
  | .ok q => (.ok q.id, s, 1)
  | .error e =>
    if e.code = strL "PGRST116" then
      match createErr with
      | some e2 => (.error (strL "Error creating quiz: " ++ e2.message), s, 2)
      | none =>
        (.ok s.nextId,
         { s with quizzes := s.quizzes ++ [⟨s.nextId, d, getDomainTitle d⟩],
                  nextId := s.nextId + 1 }, 2)
    else (.error (strL "Error checking quiz: " ++ e.message), s, 1)

/-- Lines 55–76 of quiz.ts: check whether any questions exist for the quiz
id; if so, fetch them ordered and answer with them (`some body`), else
signal a cache miss (`none`).  Store errors on either call are thrown. -/
def checkExisting (s : Store) (qid : Nat)
    (checkErr fetchErr : Option DbError) :
    Except (List Char) (Option (List QuestionOut)) × Nat :=
  match checkErr with
  | some e => (.error (strL "Error checking questions: " ++ e.message), 1)
  | none =>
    if (questionsFor s qid).length > 0 then
      match fetchErr with
      | some e => (.error (strL "Error fetching questions: " ++ e.message), 2)
      | none => (.ok (some (selectOrdered s qid)), 2)
    else (.ok none, 1)

/-- Outcome of lines 97–130 of quiz.ts: either a thrown error (caught by
the outer catch), the dedicated invalid-format 500, or exactly ten parsed
question values. -/
inductive GenOutcome where
  | thrown (msg : List Char) : GenOutcome
  | formatError : GenOutcome
  | okQs (qs : List Json) : GenOutcome

/-- Lines 104–130 of quiz.ts: trim the model text (throwing on a missing
or empty response), strip fences, `JSON.parse` it, coerce a non-array to
`[]`, and require exactly 10 entries; parse and length failures are the
format error, which responds 500 without rethrowing. -/
def parseModelOutput (content : Option (List Char)) : GenOutcome :=
  match content with
  | none => .thrown (strL "OpenAI returned empty response.")
  | some c =>
    if jsTrim c = [] then .thrown (strL "OpenAI returned empty response.")
    else
      match parseJson (cleanedResponse (jsTrim c)) with
      | none => .formatError
      | some v =>
        match v with
        | Json.arr qs => if qs.length = 10 then .okQs qs else .formatError
        | _ => .formatError

/-- Last-occurrence field lookup on a parsed JSON object, as `JSON.parse`
keeps the last duplicate key. -/
def fieldLookup (fields : List (List Char × Json)) (key : List Char) : Option Json :=
  match fields.reverse.find? (fun kv => kv.1 = key) with
  | some kv => some kv.2
  | none => none

/-- JavaScript property access `q.key` on a parsed JSON value: objects
yield the field or `undefined` (`none`), `null` throws a TypeError, and
other primitives yield `undefined`. -/
def jsGet (q : Json) (key : List Char) : Except (List Char) (Option Json) :=
  match q with
  | Json.obj fields => .ok (fieldLookup fields key)
  | Json.null => .error (strL "Cannot read properties of null (reading " ++ key ++ strL ")")
  | _ => .ok none

/-- Row prepared for insertion (no id yet; the store assigns ids). -/
structure InsertRow where
  quiz_id : Nat
  question : Option Json
  options : Option Json
  correct_answer : Option Json
  question_order : Nat

/-- Lines 133–139 of quiz.ts: map the parsed array to insert rows, with
`question_order` equal to the zero-based position plus one.  The call with
`i` produces orders `i+1`, `i+2`, …; the handler starts it at 0. -/
def mkInsertRows (qid : Nat) : Nat → List Json → Except (List Char) (List InsertRow)
  | _, [] => .ok []
  | i, q :: rest =>
    match jsGet q (strL "question"), jsGet q (strL "options"),
          jsGet q (strL "correct_answer") with
    | .ok qq, .ok oo, .ok ca =>
      match mkInsertRows qid (i + 1) rest with
      | .ok rs => .ok (⟨qid, qq, oo, ca, i + 1⟩ :: rs)
      | .error m => .error m
    | .error m, _, _ => .error m
    | _, .error m, _ => .error m
    | _, _, .error m => .error m

/-- Attach store-assigned ids to a batch of insert rows. -/
def attachIds (base : Nat) : List InsertRow → List QuestionRow
  | [] => []
  | r :: rest =>
    ⟨base, r.quiz_id, r.question, r.options, r.correct_answer, r.question_order⟩
      :: attachIds (base + 1) rest

/-- The single batch insert of lines 141–143: all rows are appended in one
atomic store call. -/
def insertRowsStore (s : Store) (rows : List InsertRow) : Store :=
  { s with quiz_questions := s.quiz_questions ++ attachIds s.nextId rows,
           nextId := s.nextId + rows.length }

/-- Lines 133–159 of quiz.ts: build the insert rows (property access on a
null entry throws), batch-insert them, then re-read the persisted rows
ordered by `question_order` and answer with that re-read. -/
def insertAndFetch (s : Store) (qid : Nat) (qs : List Json)
    (insertErr fetchErr : Option DbError) :
    Except (List Char) (List QuestionOut) × Store × Nat :=
  match mkInsertRows qid 0 qs with
  | .error m => (.error m, s, 0)
  | .ok rows =>
    match insertErr with
    | some e => (.error (strL "Error inserting questions: " ++ e.message), s, 1)
    | none =>
      match fetchErr with
      | some e =>
        (.error (strL "Error fetching inserted questions: " ++ e.message),
         insertRowsStore s rows, 2)
      | none =>
        (.ok (selectOrdered (insertRowsStore s rows) qid), insertRowsStore s rows, 2)

/-- State of a request when it reaches the OpenAI call (`atModel`), or the
completed run if it answered or threw before that call (`done`). -/
inductive PreOutcome where
  | done (resp : Response) (s : Store) (modelCalls dbCalls : Nat) : PreOutcome
  | atModel (qid : Nat) (s : Store) (dbCalls : Nat) : PreOutcome

/-- Lines 17–76 of quiz.ts: the part of `generateQuizHandler` before the
OpenAI call — parameter validation, quiz resolution, and the cache-hit
path. -/
def handlerPre (env : Env) : PreOutcome :=
  match env.domain with
  | none => .done (.badRequest (strL "Domain is required.")) env.store 0 0
  | some d =>
    if d = [] then .done (.badRequest (strL "Domain is required.")) env.store 0 0
    else
      match resolveQuiz env.store d env.quizLookupErr env.quizInsertErr with
      | (.error m, s1, db1) =>
        .done (.serverError (strL "Internal server error.") (some m)) s1 0 db1
      | (.ok qid, s1, db1) =>
        match checkExisting s1 qid env.questionCheckErr env.questionFetchErr with
        | (.error m, db2) =>
          .done (.serverError (strL "Internal server error.") (some m)) s1 0 (db1 + db2)
        | (.ok (some body), db2) => .done (.ok body) s1 0 (db1 + db2)
        | (.ok none, db2) => .atModel qid s1 (db1 + db2)

/-- Lines 97–163 of quiz.ts: the part of `generateQuizHandler` from the
OpenAI call onwards — parsing, validation, insertion, re-read, and the
outer catch mapping thrown messages to the generic 500. -/
def handlerPost (env : Env) (qid : Nat) (s : Store) (dbc : Nat) : RunResult :=
  match parseModelOutput env.modelContent with
  | .thrown m => ⟨.serverError (strL "Internal server error.") (some m), s, 1, dbc⟩
  | .formatError => ⟨.serverError (strL "Invalid JSON format from OpenAI.") none, s, 1, dbc⟩
  | .okQs qs =>
    match insertAndFetch s qid qs env.questionInsertErr env.insertedFetchErr with
    | (.error m, s2, db3) =>
      ⟨.serverError (strL "Internal server error.") (some m), s2, 1, dbc + db3⟩
    | (.ok body, s2, db3) => ⟨.ok body, s2, 1, dbc + db3⟩

/-- The whole of `generateQuizHandler` (lines 17–164 of quiz.ts) as one
sequential execution. -/
def generateQuizHandler (env : Env) : RunResult :=
  match handlerPre env with
  | .done r s mc dbc => ⟨r, s, mc, dbc⟩
  | .atModel qid s dbc => handlerPost env qid s dbc

/-- One interleaving of two concurrent executions on the shared store,
with suspension points at the awaited network calls: request A runs until
it either finishes or suspends at the OpenAI call; request B then runs to
completion; A finally resumes with B's store.  Returns A's response, B's
response, the final store, and the total number of model calls. -/
def runRace (envA envB : Env) : Response × Response × Store × Nat :=
  match handlerPre envA with
  | .done rA sA mcA _ =>
    let rB := generateQuizHandler { envB with store := sA }
    (rA, rB.response, rB.store, mcA + rB.modelCalls)
  | .atModel qid sA _ =>
    let rB := generateQuizHandler { envB with store := sA }
    let resA := handlerPost envA qid rB.store 0
    (resA.response, rB.response, resA.store, rB.modelCalls + resA.modelCalls)

/-- Lines 27–33 of index.ts: the app-level fallback error handler, which
suppresses the error detail exactly when NODE_ENV is `production`.  The
quiz route never reaches it because `generateQuizHandler` catches every
failure itself. -/
def errorHandler (nodeEnv : List Char) (errMessage : List Char) : Response :=
  .serverError (strL "Internal server error")
    (if nodeEnv = strL "production" then none else some errMessage)

/-- Error detail field of a response (`none` for non-500 responses). -/
def errDetailOf : Response → Option (List Char)
  | .serverError _ e => e
  | _ => none

/-- Length of the question array of a 200 response (0 otherwise). -/
def bodyLen : Response → Nat
  | .ok body => body.length
  | _ => 0

/-- Status code of a response. -/
def statusOf : Response → Nat
  | .badRequest _ => 400
  | .serverError _ _ => 500
  | .ok _ => 200

/-! Concrete scenario data for witnesses and counterexamples. -/

/-- An empty store whose id sequence starts at 1. -/
def store0 : Store := ⟨[], [], 1⟩

/-- A request environment with no injected failures and no model response. -/
def baseEnv : Env :=
  ⟨some (strL "linux"), store0, none, none, none, none, none, none, none,
   strL "development"⟩

/-- Model output that is a JSON array of ten values. -/
def tenNumsText : List Char := strL "[1,2,3,4,5,6,7,8,9,10]"

/-- A second, different ten-value JSON array. -/
def tenNumsTextB : List Char := strL "[11,12,13,14,15,16,17,18,19,20]"

/-- The parsed values of `tenNumsText`. -/
def tenNums : List Json :=
  [Json.num 1, Json.num 2, Json.num 3, Json.num 4, Json.num 5,
   Json.num 6, Json.num 7, Json.num 8, Json.num 9, Json.num 10]

/-- A well-formed question object, as JSON text. -/
def qItemFull : String :=
  "\x7b\"question\":\"q\",\"options\":\x7b\"A\":\"a\",\"B\":\"b\",\"C\":\"c\",\"D\":\"d\"\x7d,\"correct_answer\":\"A\"\x7d"

/-- A question object missing the `correct_answer` field, as JSON text. -/
def qItemNoAnswer : String :=
  "\x7b\"question\":\"q\",\"options\":\x7b\"A\":\"a\",\"B\":\"b\",\"C\":\"c\",\"D\":\"d\"\x7d\x7d"

/-- Model output that is a JSON array of ten objects in which the first
entry lacks `correct_answer`. -/
def missingFieldText : List Char :=
  strL ("[" ++ qItemNoAnswer ++ "," ++ qItemFull ++ "," ++ qItemFull ++ ","
    ++ qItemFull ++ "," ++ qItemFull ++ "," ++ qItemFull ++ "," ++ qItemFull
    ++ "," ++ qItemFull ++ "," ++ qItemFull ++ "," ++ qItemFull ++ "]")

/-- The quiz row created for the domain `linux` with id 1. -/
def linuxQuiz : QuizRow := ⟨1, strL "linux", strL "Skill Assessment Quiz"⟩

/-- The store after only the `linux` quiz row has been created. -/
def storeQuizOnly : Store := ⟨[linuxQuiz], [], 2⟩

/-- Two persisted questions for quiz 1, stored out of order. -/
def q1Row : QuestionRow := ⟨2, 1, some (Json.str ['x']), none, some (Json.str ['A']), 2⟩

/-- Second persisted question (order 1, stored after the order-2 row). -/
def q2Row : QuestionRow := ⟨3, 1, some (Json.str ['y']), none, some (Json.str ['B']), 1⟩

/-- A store holding the `linux` quiz and two questions for it. -/
def cachedStore : Store := ⟨[linuxQuiz], [q1Row, q2Row], 4⟩

/-- Environment whose store already holds questions (cache-hit case). -/
def c3env : Env := { baseEnv with store := cachedStore }

/-- Environment in which the model answers with `tenNumsText`. -/
def genEnv : Env := { baseEnv with modelContent := some tenNumsText }

/-- First concurrent request of the race scenario. -/
def raceEnvA : Env := { baseEnv with modelContent := some tenNumsText }

/-- Second concurrent request of the race scenario. -/
def raceEnvB : Env := { baseEnv with modelContent := some tenNumsTextB }

/-- Environment whose quiz lookup fails with a non-PGRST116 store error. -/
def lookupFailEnv : Env :=
  { baseEnv with quizLookupErr := some ⟨strL "08006", strL "db down"⟩ }

/-- The lookup-failure environment with NODE_ENV set to production. -/
def prodLookupFailEnv : Env :=
  { baseEnv with quizLookupErr := some ⟨strL "08006", strL "db down"⟩,
                 nodeEnv := strL "production" }

/-- Environment with no domain query parameter. -/
def noDomainEnv : Env := { baseEnv with domain := none }

/-- Environment whose model answers with a 3-element array. -/
def badLenEnv : Env := { baseEnv with modelContent := some (strL "[1,2,3]") }

/-- Environment whose model answers with ten objects, one missing
`correct_answer`. -/
def missingFieldEnv : Env := { baseEnv with modelContent := some missingFieldText }

/-- The ten insert rows produced from `tenNums` for quiz 1. -/
def tenRows : List InsertRow :=
  [⟨1, none, none, none, 1⟩, ⟨1, none, none, none, 2⟩, ⟨1, none, none, none, 3⟩,
   ⟨1, none, none, none, 4⟩, ⟨1, none, none, none, 5⟩, ⟨1, none, none, none, 6⟩,
   ⟨1, none, none, none, 7⟩, ⟨1, none, none, none, 8⟩, ⟨1, none, none, none, 9⟩,
   ⟨1, none, none, none, 10⟩]

/-- A json-tagged code fence wrapping of a text. -/
def fencedJsonWrap (s : List Char) : List Char :=
  fenceJsonTag ++ '\n' :: s ++ '\n' :: fence3

/-- An untagged code fence wrapping of a text. -/
def fencedPlainWrap (s : List Char) : List Char :=
  fence3 ++ '\n' :: s ++ '\n' :: fence3

/-- Store of a `PreOutcome`. -/
def preStore : PreOutcome → Store
  | .done _ s _ _ => s
  | .atModel _ s _ => s

/-- Shape every response of the handler satisfies: a 400 carries the fixed
domain message, a 500 carries one of the two fixed messages, a 200 carries
a question array. -/
def wellFormedResponse : Response → Prop
  | .badRequest m => m = strL "Domain is required."
  | .serverError m _ =>
    m = strL "Internal server error." ∨ m = strL "Invalid JSON format from OpenAI."
  | .ok _ => True

/-! Helper lemmas. -/

lemma resolveQuiz_questions (s : Store) (d : List Char) (a b : Option DbError) :
    ((resolveQuiz s d a b).2.1).quiz_questions = s.quiz_questions := by
  simp only [resolveQuiz]
  split
  · rfl
  · split
    · split <;> rfl
    · rfl

lemma preStore_questions (env : Env) :
    (preStore (handlerPre env)).quiz_questions = env.store.quiz_questions := by
  unfold handlerPre
  rcases hdom : env.domain with _ | d
  · simp only [hdom]
    rfl
  · simp only [hdom]
    by_cases hd : d = []
    · rw [if_pos hd]
      rfl
    · rw [if_neg hd]
      have h2 := resolveQuiz_questions env.store d env.quizLookupErr env.quizInsertErr
      rcases hres : resolveQuiz env.store d env.quizLookupErr env.quizInsertErr with ⟨res, s1, db1⟩
      rw [hres] at h2
      have h2' : s1.quiz_questions = env.store.quiz_questions := h2
      cases res with
      | error m => simpa only [preStore] using h2'
      | ok qid =>
        rcases hchk : checkExisting s1 qid env.questionCheckErr env.questionFetchErr with ⟨res2, db2⟩
        rcases res2 with m | o
        · simp only [hchk, preStore]
          exact h2'
        · rcases o with _ | body <;>
            (simp only [hchk, preStore]; exact h2')

lemma run_atModel (env : Env) (qid : Nat) (s : Store) (dbc : Nat)
    (h : handlerPre env = .atModel qid s dbc) :
    generateQuizHandler env = handlerPost env qid s dbc := by
  unfold generateQuizHandler
  rw [h]

lemma parseModelOutput_okQs_length (c : Option (List Char)) (qs : List Json)
    (h : parseModelOutput c = .okQs qs) : qs.length = 10 := by
  unfold parseModelOutput at h
  split at h
  · cases h
  · split at h
    · cases h
    · split at h
      · cases h
      · split at h
        · split at h
          · injection h with h'
            subst h'
            assumption
          · cases h
        · cases h

lemma mkInsertRows_spec (qid : Nat) :
    ∀ (qs : List Json) (i : Nat) (rows : List InsertRow),
      mkInsertRows qid i qs = .ok rows →
      rows.length = qs.length ∧
      rows.map (fun r => r.question_order) = List.range' (i + 1) qs.length ∧
      ∀ r ∈ rows, r.quiz_id = qid := by
  intro qs
  induction qs with
  | nil =>
    intro i rows h
    unfold mkInsertRows at h
    injection h with h'
    subst h'
    refine ⟨rfl, by simp, by simp⟩
  | cons q rest ih =>
    intro i rows h
    unfold mkInsertRows at h
    split at h
    · split at h
      next rs hrec =>
        injection h with h'
        subst h'
        obtain ⟨hl, ho, hq⟩ := ih (i + 1) rs hrec
        refine ⟨by simp [hl], ?_, ?_⟩
        · rw [List.map_cons, ho, List.length_cons, List.range'_succ]
        · intro r hr
          rcases List.mem_cons.mp hr with hr | hr
          · subst hr; rfl
          · exact hq r hr
      next hrec => cases h
    · cases h
    · cases h
    · cases h

lemma attachIds_length (rows : List InsertRow) :
    ∀ base, (attachIds base rows).length = rows.length := by
  induction rows with
  | nil => intro base; rfl
  | cons a t ih => intro base; simp [attachIds, ih]

lemma attachIds_map_order (rows : List InsertRow) :
    ∀ base, (attachIds base rows).map (fun r => r.question_order) =
      rows.map (fun r => r.question_order) := by
  induction rows with
  | nil => intro base; rfl
  | cons a t ih => intro base; simp [attachIds, ih]

lemma attachIds_quiz_id (rows : List InsertRow) (qid : Nat)
    (h : ∀ r ∈ rows, r.quiz_id = qid) :
    ∀ base, ∀ r ∈ attachIds base rows, r.quiz_id = qid := by
  induction rows with
  | nil => intro base r hr; cases hr
  | cons a t ih =>
    intro base r hr
    rcases List.mem_cons.mp hr with hr | hr
    · subst hr; exact h a (List.mem_cons_self a t)
    · exact ih (fun r' hr' => h r' (List.mem_cons_of_mem a hr')) (base + 1) r hr

lemma sorted_of_orders_range' (l : List QuestionRow) (s n : Nat)
    (h : l.map (fun r => r.question_order) = List.range' s n) :
    List.Sorted (fun a b : QuestionRow => a.question_order ≤ b.question_order) l := by
  have hp : List.Pairwise (· < ·) (l.map fun r => r.question_order) := by
    rw [h]; exact List.pairwise_lt_range' s n
  rw [List.pairwise_map] at hp
  exact hp.imp fun hab => le_of_lt hab

lemma selectOrdered_fresh (s : Store) (qid : Nat) (rows : List InsertRow)
    (hq : s.quiz_questions = []) (hz : ∀ r ∈ rows, r.quiz_id = qid)
    (ho : rows.map (fun r => r.question_order) = List.range' 1 rows.length) :
    selectOrdered (insertRowsStore s rows) qid =
      (attachIds s.nextId rows).map
        (fun r => (⟨r.id, r.question, r.options, r.correct_answer, r.question_order⟩ : QuestionOut)) := by
  have hfilter : questionsFor (insertRowsStore s rows) qid = attachIds s.nextId rows := by
    unfold questionsFor insertRowsStore
    simp only [hq, List.nil_append]
    exact List.filter_eq_self.mpr
      (fun r hr => by simp [attachIds_quiz_id rows qid hz s.nextId r hr])
  have hsorted : List.Sorted (fun a b : QuestionRow => a.question_order ≤ b.question_order)
      (attachIds s.nextId rows) := by
    apply sorted_of_orders_range' _ 1 rows.length
    rw [attachIds_map_order]
    exact ho
  unfold selectOrdered
  rw [hfilter, hsorted.insertionSort_eq]

lemma run_lookupErr (env : Env) (d : List Char) (e : DbError)
    (h1 : env.domain = some d) (h2 : d ≠ []) (h3 : env.quizLookupErr = some e)
    (h4 : e.code ≠ strL "PGRST116") :
    generateQuizHandler env =
      ⟨.serverError (strL "Internal server error.")
          (some (strL "Error checking quiz: " ++ e.message)), env.store, 0, 1⟩ := by
  unfold generateQuizHandler handlerPre resolveQuiz
  rw [h1, h3]
  simp only [if_neg h2, if_neg h4]

lemma fencedJsonWrap_cons (s : List Char) :
    fencedJsonWrap s =
      bq :: bq :: bq :: 'j' :: 's' :: 'o' :: 'n' :: '\n' :: (s ++ '\n' :: fence3) := rfl

lemma fencedJsonWrap_concat (s : List Char) :
    fencedJsonWrap s =
      (bq :: bq :: bq :: 'j' :: 's' :: 'o' :: 'n' :: '\n' :: (s ++ ['\n', bq, bq])) ++ [bq] := by
  rw [fencedJsonWrap_cons]
  simp only [List.cons_append, List.append_assoc]
  rfl

lemma jsTrim_fencedJsonWrap (s : List Char) :
    jsTrim (fencedJsonWrap s) = fencedJsonWrap s := by
  unfold jsTrim
  have h1 : (fencedJsonWrap s).dropWhile isWsChar = fencedJsonWrap s := by
    rw [fencedJsonWrap_cons, List.dropWhile_cons, if_neg (by decide)]
  rw [h1, fencedJsonWrap_concat, List.rdropWhile_concat_neg isWsChar _ bq (by decide)]

lemma cleaned_fencedJsonWrap (s : List Char) :
    cleanedResponse (fencedJsonWrap s) = jsTrim s := by
  unfold cleanedResponse stripLeadingJsonFence
  have htake : ((fencedJsonWrap s).take 7).map Char.toLower = fenceJsonTag := by
    rw [show (fencedJsonWrap s).take 7 = fenceJsonTag from rfl]
    decide
  rw [if_pos htake]
  rw [show (fencedJsonWrap s).drop 7 = '\n' :: (s ++ '\n' :: fence3) from rfl]
  rw [List.dropWhile_cons, if_pos (by decide : isWsChar '\n' = true)]
  rw [List.dropWhile_append]
  cases hd : (List.dropWhile isWsChar s).isEmpty with
  | true =>
    rw [if_pos rfl]
    rw [show jsTrim (stripTrailingFence (List.dropWhile isWsChar ('\n' :: fence3)))
          = [] from rfl]
    have hnil : List.dropWhile isWsChar s = [] := by
      simpa using hd
    unfold jsTrim
    rw [hnil]
    rfl
  | false =>
    rw [if_neg (by simp)]
    have hst : stripTrailingFence (List.dropWhile isWsChar s ++ '\n' :: fence3) =
        List.dropWhile isWsChar s ++ ['\n'] := by
      unfold stripTrailingFence
      rw [List.reverse_append]
      rw [show ('\n' :: fence3).reverse ++ (List.dropWhile isWsChar s).reverse =
            bq :: bq :: bq :: '\n' :: (List.dropWhile isWsChar s).reverse from rfl]
      rw [if_pos (show List.take 3
            (bq :: bq :: bq :: '\n' :: (List.dropWhile isWsChar s).reverse) = fence3 from rfl)]
      rw [show List.drop 3
            (bq :: bq :: bq :: '\n' :: (List.dropWhile isWsChar s).reverse) =
            '\n' :: (List.dropWhile isWsChar s).reverse from rfl]
      rw [List.reverse_cons, List.reverse_reverse]
    rw [hst]
    unfold jsTrim
    rw [List.dropWhile_append, List.dropWhile_idempotent, if_neg (by simp [hd])]
    rw [List.rdropWhile_concat_pos isWsChar (List.dropWhile isWsChar s) '\n' (by decide)]

lemma handlerPre_done_resp (env : Env) (r : Response) (s : Store) (mc dbc : Nat)
    (h : handlerPre env = .done r s mc dbc) : wellFormedResponse r := by
  unfold handlerPre at h
  split at h
  · cases h; exact rfl
  · split at h
    · cases h; exact rfl
    · split at h
      · cases h; exact Or.inl rfl
      · split at h
        · cases h; exact Or.inl rfl
        · cases h; trivial
        · cases h

lemma checkExisting_some_pos (s : Store) (qid : Nat) (a b : Option DbError)
    (body : List QuestionOut) (n : Nat)
    (h : checkExisting s qid a b = (.ok (some body), n)) :
    (questionsFor s qid).length > 0 := by
  unfold checkExisting at h
  split at h
  · simp at h
  · split at h
    · split at h
      · simp at h
      · assumption
    · simp at h

lemma handlerPre_ok_nonempty (env : Env) (body : List QuestionOut) (s : Store)
    (mc dbc : Nat) (hpre : handlerPre env = .done (.ok body) s mc dbc) :
    env.store.quiz_questions ≠ [] := by
  intro hempty
  unfold handlerPre at hpre
  rcases hdom : env.domain with _ | d
  · simp only [hdom] at hpre
    simp at hpre
  · simp only [hdom] at hpre
    by_cases hd : d = []
    · rw [if_pos hd] at hpre
      simp at hpre
    · rw [if_neg hd] at hpre
      rcases hres : resolveQuiz env.store d env.quizLookupErr env.quizInsertErr with ⟨res, s1, db1⟩
      rw [hres] at hpre
      cases res with
      | error m => simp at hpre
      | ok qid =>
        have hs1 : s1.quiz_questions = env.store.quiz_questions := by
          have h2 := resolveQuiz_questions env.store d env.quizLookupErr env.quizInsertErr
          rw [hres] at h2
          exact h2
        rcases hchk : checkExisting s1 qid env.questionCheckErr env.questionFetchErr with ⟨res2, db2⟩
        simp only [hchk] at hpre
        rcases res2 with m | o
        · simp at hpre
        · rcases o with _ | body'
          · simp at hpre
          · have hgt := checkExisting_some_pos s1 qid env.questionCheckErr env.questionFetchErr
              body' db2 hchk
            unfold questionsFor at hgt
            rw [hs1, hempty] at hgt
            simp at hgt

lemma parseModelOutput_formatError_of (c : List Char) (h3 : jsTrim c ≠ [])
    (hbad : parseJson (cleanedResponse (jsTrim c)) = none ∨
      (∃ v, parseJson (cleanedResponse (jsTrim c)) = some v ∧ ∀ qs, v ≠ Json.arr qs) ∨
      (∃ qs, parseJson (cleanedResponse (jsTrim c)) = some (Json.arr qs) ∧ qs.length ≠ 10)) :
    parseModelOutput (some c) = .formatError := by
  simp only [parseModelOutput]
  rw [if_neg h3]
  rcases hbad with hb | ⟨v, hv, hna⟩ | ⟨qs, hq, hl⟩
  · rw [hb]
  · rw [hv]
    cases v with
    | arr qs => exact absurd rfl (hna qs)
    | null => rfl
    | bool b => rfl
    | num n => rfl
    | str s => rfl
    | obj fields => rfl
  · rw [hq]
    simp only [if_neg hl]

/-! Claim theorems. -/

/-- C1: the claim demands that K concurrent first-time requests for one
unseen domain produce exactly one model call and one persisted set of 10
questions which all callers receive.  The code has no mutual exclusion:
in the event-loop interleaving where request A suspends at the OpenAI call
and request B completes meanwhile, the handler performs 2 model calls,
persists 20 question rows under the single quiz, and the two callers
receive different bodies (20 rows and 10 rows). -/
theorem c1_concurrent_double_generation :
    raceEnvA.store.quizzes = [] ∧ raceEnvA.store.quiz_questions = [] ∧
    (runRace raceEnvA raceEnvB).2.2.2 = 2 ∧
    (runRace raceEnvA raceEnvB).2.2.1.quiz_questions.length = 20 ∧
    statusOf (runRace raceEnvA raceEnvB).1 = 200 ∧
    statusOf (runRace raceEnvA raceEnvB).2.1 = 200 ∧
    bodyLen (runRace raceEnvA raceEnvB).1 = 20 ∧
    bodyLen (runRace raceEnvA raceEnvB).2.1 = 10 :=
  ⟨rfl, rfl, rfl, rfl, rfl, rfl, rfl, rfl⟩

/-- C3: whenever at least one persisted question exists for the resolved
quiz id (and the involved store calls do not fail), the handler returns the
stored questions ordered by question_order ascending, performs no model
call, leaves the store unchanged, and a repeated sequential call returns
the identical result. -/
theorem c3_cache_hit_idempotent (env : Env) (d : List Char) (q : QuizRow)
    (hdom : env.domain = some d) (hdne : d ≠ [])
    (hlerr : env.quizLookupErr = none)
    (hmatch : quizMatches env.store d = [q])
    (hcerr : env.questionCheckErr = none)
    (hferr : env.questionFetchErr = none)
    (hnonempty : (questionsFor env.store q.id).length > 0) :
    generateQuizHandler env = ⟨.ok (selectOrdered env.store q.id), env.store, 0, 3⟩ ∧
    generateQuizHandler { env with store := (generateQuizHandler env).store } =
      generateQuizHandler env := by
  have hrun : generateQuizHandler env =
      ⟨.ok (selectOrdered env.store q.id), env.store, 0, 3⟩ := by
    simp only [generateQuizHandler, handlerPre, resolveQuiz, checkExisting, hdom,
      hlerr, hmatch, hcerr, hferr, if_neg hdne, if_pos hnonempty]
  refine ⟨hrun, ?_⟩
  rw [hrun]
  exact hrun

/-- Witness for C3 at a concrete store holding the linux quiz with two
questions persisted out of order. -/
theorem c3_cache_hit_idempotent_witness :
    quizMatches cachedStore (strL "linux") = [linuxQuiz] ∧
    (questionsFor cachedStore linuxQuiz.id).length > 0 ∧
    generateQuizHandler c3env =
      ⟨.ok (selectOrdered cachedStore linuxQuiz.id), cachedStore, 0, 3⟩ := by
  have R := c3_cache_hit_idempotent c3env (strL "linux") linuxQuiz rfl (by decide)
    rfl (by decide) rfl rfl (by decide)
  exact ⟨by decide, by decide, R.1⟩

/-- C6 amended: only a json-tagged leading fence is stripped.  For every
model output consisting of a well-formed JSON array wrapped in a
json-tagged fence, parsing succeeds on the unwrapped array. -/
theorem c6_tagged_fence_parses (s : List Char) (qs : List Json)
    (h : parseJson (jsTrim s) = some (Json.arr qs)) :
    parseJson (cleanedResponse (jsTrim (fencedJsonWrap s))) = some (Json.arr qs) := by
  rw [jsTrim_fencedJsonWrap, cleaned_fencedJsonWrap, h]

/-- Witness for C6 at a concrete ten-element array. -/
theorem c6_tagged_fence_parses_witness :
    parseJson (jsTrim tenNumsText) = some (Json.arr tenNums) ∧
    parseJson (cleanedResponse (jsTrim (fencedJsonWrap tenNumsText))) =
      some (Json.arr tenNums) :=
  ⟨rfl, c6_tagged_fence_parses tenNumsText tenNums rfl⟩

/-- C6 counterexample: the claim also covers untagged fences, but the
leading-fence regex only matches a json-tagged fence, so a well-formed
array wrapped in a bare fence fails to parse and the run reports the
format error. -/
theorem c6_untagged_fence_not_stripped :
    parseJson (jsTrim tenNumsText) = some (Json.arr tenNums) ∧
    parseJson (cleanedResponse (jsTrim (fencedPlainWrap tenNumsText))) = none ∧
    parseModelOutput (some (fencedPlainWrap tenNumsText)) = GenOutcome.formatError :=
  ⟨rfl, rfl, rfl⟩

/-- C7: a quiz-lookup failure other than the distinguishable PGRST116
no-row condition aborts the request with the 500 store error, without a
model call and without touching the store (one store call was made). -/
theorem c7_lookup_error_aborts_before_model (env : Env) (d : List Char) (e : DbError)
    (h1 : env.domain = some d) (h2 : d ≠ []) (h3 : env.quizLookupErr = some e)
    (h4 : e.code ≠ strL "PGRST116") :
    generateQuizHandler env =
      ⟨.serverError (strL "Internal server error.")
          (some (strL "Error checking quiz: " ++ e.message)), env.store, 0, 1⟩ :=
  run_lookupErr env d e h1 h2 h3 h4

/-- Witness for C7 with an injected connection failure. -/
theorem c7_lookup_error_aborts_before_model_witness :
    lookupFailEnv.quizLookupErr = some ⟨strL "08006", strL "db down"⟩ ∧
    (⟨strL "08006", strL "db down"⟩ : DbError).code ≠ strL "PGRST116" ∧
    generateQuizHandler lookupFailEnv =
      ⟨.serverError (strL "Internal server error.")
          (some (strL "Error checking quiz: db down")), lookupFailEnv.store, 0, 1⟩ := by
  have R := c7_lookup_error_aborts_before_model lookupFailEnv (strL "linux")
    ⟨strL "08006", strL "db down"⟩ rfl (by decide) rfl (by decide)
  exact ⟨rfl, by decide, R⟩

/-- C8: a missing or empty domain parameter is rejected with the 400
response before any store call (zero store calls, zero model calls, store
unchanged). -/
theorem c8_invalid_domain_rejected (env : Env)
    (h : env.domain = none ∨ env.domain = some []) :
    generateQuizHandler env =
      ⟨.badRequest (strL "Domain is required."), env.store, 0, 0⟩ := by
  rcases h with h | h
  · simp only [generateQuizHandler, handlerPre, h]
  · simp only [generateQuizHandler, handlerPre, h]
    rfl

/-- Witness for C8 with a missing domain parameter. -/
theorem c8_invalid_domain_rejected_witness :
    (noDomainEnv.domain = none ∨ noDomainEnv.domain = some []) ∧
    generateQuizHandler noDomainEnv =
      ⟨.badRequest (strL "Domain is required."), noDomainEnv.store, 0, 0⟩ :=
  ⟨Or.inl rfl, c8_invalid_domain_rejected noDomainEnv (Or.inl rfl)⟩

/-- C9 amended: the handler's own catch always places the internal error
message in the 500 body, regardless of NODE_ENV; detail suppression in
production exists only in the app-level fallback handler of index.ts,
which the quiz route never reaches. -/
theorem c9_detail_always_included (env : Env) (d : List Char) (e : DbError)
    (h1 : env.domain = some d) (h2 : d ≠ []) (h3 : env.quizLookupErr = some e)
    (h4 : e.code ≠ strL "PGRST116") :
    errDetailOf (generateQuizHandler env).response =
      some (strL "Error checking quiz: " ++ e.message) ∧
    errorHandler (strL "production") e.message =
      .serverError (strL "Internal server error") none ∧
    errorHandler (strL "development") e.message =
      .serverError (strL "Internal server error") (some e.message) := by
  refine ⟨?_, rfl, rfl⟩
  rw [run_lookupErr env d e h1 h2 h3 h4]
  rfl

/-- Witness for C9 with NODE_ENV set to production. -/
theorem c9_detail_always_included_witness :
    prodLookupFailEnv.nodeEnv = strL "production" ∧
    prodLookupFailEnv.quizLookupErr = some ⟨strL "08006", strL "db down"⟩ ∧
    errDetailOf (generateQuizHandler prodLookupFailEnv).response =
      some (strL "Error checking quiz: db down") := by
  have R := c9_detail_always_included prodLookupFailEnv (strL "linux")
    ⟨strL "08006", strL "db down"⟩ rfl (by decide) rfl (by decide)
  exact ⟨rfl, rfl, R.1⟩

/-- C9 counterexample: with production mode set, a store failure still
yields a 500 whose body carries the internal error detail, contradicting
the claimed suppression outside development mode. -/
theorem c9_production_detail_leaked :
    prodLookupFailEnv.nodeEnv = strL "production" ∧
    errDetailOf (generateQuizHandler prodLookupFailEnv).response =
      some (strL "Error checking quiz: db down") ∧
    errDetailOf (generateQuizHandler prodLookupFailEnv).response ≠ none :=
  ⟨rfl, rfl, by decide⟩

/-- C4 amended: a model response whose cleaned text is not parseable JSON,
parses to a non-array, or parses to an array of length other than 10 makes
the run answer the distinguishable format 500 (message `Invalid JSON
format from OpenAI.` with no error detail, distinct from the generic store
500), persist zero questions, and still count one model call; the array is
never padded or truncated.  Per-entry field presence is NOT validated (see
the counterexample). -/
theorem c4_format_failures_rejected (env : Env) (qid : Nat) (s : Store)
    (dbc : Nat) (c : List Char)
    (hpre : handlerPre env = .atModel qid s dbc)
    (hc : env.modelContent = some c)
    (h3 : jsTrim c ≠ [])
    (hbad : parseJson (cleanedResponse (jsTrim c)) = none ∨
      (∃ v, parseJson (cleanedResponse (jsTrim c)) = some v ∧ ∀ qs, v ≠ Json.arr qs) ∨
      (∃ qs, parseJson (cleanedResponse (jsTrim c)) = some (Json.arr qs) ∧ qs.length ≠ 10)) :
    (generateQuizHandler env).response =
      .serverError (strL "Invalid JSON format from OpenAI.") none ∧
    (generateQuizHandler env).store.quiz_questions = env.store.quiz_questions ∧
    (generateQuizHandler env).modelCalls = 1 := by
  have hfmt : parseModelOutput env.modelContent = .formatError := by
    rw [hc]
    exact parseModelOutput_formatError_of c h3 hbad
  have hs : s.quiz_questions = env.store.quiz_questions := by
    have hp := preStore_questions env
    rw [hpre] at hp
    exact hp
  rw [run_atModel env qid s dbc hpre]
  unfold handlerPost
  simp only [hfmt]
  exact ⟨trivial, hs, trivial⟩

/-- Witness for C4 at a 3-element model response. -/
theorem c4_format_failures_rejected_witness :
    handlerPre badLenEnv = .atModel 1 storeQuizOnly 3 ∧
    badLenEnv.modelContent = some (strL "[1,2,3]") ∧
    jsTrim (strL "[1,2,3]") ≠ [] ∧
    (generateQuizHandler badLenEnv).response =
      .serverError (strL "Invalid JSON format from OpenAI.") none ∧
    (generateQuizHandler badLenEnv).store.quiz_questions =
      badLenEnv.store.quiz_questions := by
  have R := c4_format_failures_rejected badLenEnv 1 storeQuizOnly 3 (strL "[1,2,3]")
    rfl rfl (by decide)
    (Or.inr (Or.inr ⟨[Json.num 1, Json.num 2, Json.num 3], rfl, by decide⟩))
  exact ⟨rfl, rfl, by decide, R.1, R.2.1⟩

/-- C4 counterexample: a 10-element array whose first entry lacks
`correct_answer` is accepted, answered with 200, and persisted (10 rows,
the first with an absent correct_answer) — not rejected with a format
error and not left at zero persisted questions as the claim requires. -/
theorem c4_missing_field_accepted :
    (match parseJson missingFieldText with
     | some (Json.arr qs) => qs.length
     | _ => 0) = 10 ∧
    statusOf (generateQuizHandler missingFieldEnv).response = 200 ∧
    (generateQuizHandler missingFieldEnv).store.quiz_questions.length = 10 ∧
    ((generateQuizHandler missingFieldEnv).store.quiz_questions.map
        (fun r => r.correct_answer.isNone)) =
      [true, false, false, false, false, false, false, false, false, false] :=
  ⟨rfl, rfl, rfl, rfl⟩

/-- C5: on the generation path the handler maps the parsed array position
i to question_order i+1, batch-inserts all rows tied to the resolved quiz
id in one store call, and answers with the re-read of the persisted rows
ordered by question_order — never with the in-memory objects. -/
theorem c5_order_assignment_and_reread (env : Env) (qid : Nat) (s : Store)
    (dbc : Nat) (qs : List Json) (rows : List InsertRow)
    (hpre : handlerPre env = .atModel qid s dbc)
    (hparse : parseModelOutput env.modelContent = .okQs qs)
    (hmk : mkInsertRows qid 0 qs = .ok rows)
    (hins : env.questionInsertErr = none)
    (hfet : env.insertedFetchErr = none) :
    generateQuizHandler env =
      ⟨.ok (selectOrdered (insertRowsStore s rows) qid),
       insertRowsStore s rows, 1, dbc + 2⟩ ∧
    (insertRowsStore s rows).quiz_questions =
      s.quiz_questions ++ attachIds s.nextId rows ∧
    rows.map (fun r => r.question_order) = List.range' 1 qs.length ∧
    (∀ r ∈ rows, r.quiz_id = qid) ∧ qs.length = 10 := by
  obtain ⟨hrl, hro, hrq⟩ := mkInsertRows_spec qid qs 0 rows hmk
  refine ⟨?_, rfl, by simpa using hro, hrq, parseModelOutput_okQs_length _ _ hparse⟩
  rw [run_atModel env qid s dbc hpre]
  unfold handlerPost
  simp only [hparse, insertAndFetch, hmk, hins, hfet]

/-- Witness for C5 on the empty store with the ten-number model answer. -/
theorem c5_order_assignment_and_reread_witness :
    handlerPre genEnv = .atModel 1 storeQuizOnly 3 ∧
    parseModelOutput genEnv.modelContent = .okQs tenNums ∧
    mkInsertRows 1 0 tenNums = .ok tenRows ∧
    generateQuizHandler genEnv =
      ⟨.ok (selectOrdered (insertRowsStore storeQuizOnly tenRows) 1),
       insertRowsStore storeQuizOnly tenRows, 1, 5⟩ ∧
    tenRows.map (fun r => r.question_order) = List.range' 1 tenNums.length := by
  have R := c5_order_assignment_and_reread genEnv 1 storeQuizOnly 3 tenNums tenRows
    rfl rfl rfl rfl rfl
  exact ⟨rfl, rfl, rfl, R.1, R.2.2.1⟩

/-- C2 counterexample: in the race interleaving a caller observes a 200
response with 20 questions for the domain, which is neither 0 nor 10, so
the claimed exactly-0-or-10 invariant fails under concurrency. -/
theorem c2_race_observable_twenty :
    raceEnvA.store.quiz_questions = [] ∧
    statusOf (runRace raceEnvA raceEnvB).1 = 200 ∧
    bodyLen (runRace raceEnvA raceEnvB).1 = 20 ∧
    ¬(bodyLen (runRace raceEnvA raceEnvB).1 = 0 ∨
      bodyLen (runRace raceEnvA raceEnvB).1 = 10) :=
  ⟨rfl, rfl, rfl, by decide⟩

/-- C2 amended: under sequential execution the invariant holds — a run
starting with no persisted questions leaves exactly 0 or exactly 10
question rows (the batch insert is one atomic store call, so 1–9 rows are
never observable), and any 200 response it produces carries exactly 10
questions ordered 1..10 with no gaps or duplicates; a concurrent race can
however yield 20 (see the counterexample). -/
theorem c2_sequential_zero_or_ten (env : Env)
    (h : env.store.quiz_questions = []) :
    ((generateQuizHandler env).store.quiz_questions.length = 0 ∨
      (generateQuizHandler env).store.quiz_questions.length = 10) ∧
    ∀ body, (generateQuizHandler env).response = Response.ok body →
      body.length = 10 ∧
      body.map (fun q => q.question_order) = List.range' 1 10 := by
  unfold generateQuizHandler
  cases hpre : handlerPre env with
  | done r s mc dbc =>
    have hs : s.quiz_questions = [] := by
      have hp := preStore_questions env
      rw [hpre] at hp
      rw [show (preStore (PreOutcome.done r s mc dbc)) = s from rfl] at hp
      rw [hp]
      exact h
    constructor
    · left
      simp [hs]
    · intro body hb
      have hr : r = Response.ok body := hb
      rw [hr] at hpre
      exact absurd h (handlerPre_ok_nonempty env body s mc dbc hpre)
  | atModel qid s dbc =>
    have hs : s.quiz_questions = [] := by
      have hp := preStore_questions env
      rw [hpre] at hp
      rw [show (preStore (PreOutcome.atModel qid s dbc)) = s from rfl] at hp
      rw [hp]
      exact h
    unfold handlerPost
    cases hparse : parseModelOutput env.modelContent with
    | thrown m =>
      refine ⟨Or.inl (by simp [hs]), ?_⟩
      intro body hb
      simp at hb
    | formatError =>
      refine ⟨Or.inl (by simp [hs]), ?_⟩
      intro body hb
      simp at hb
    | okQs qs =>
      have hlen := parseModelOutput_okQs_length env.modelContent qs hparse
      cases hmk : mkInsertRows qid 0 qs with
      | error m =>
        simp only [insertAndFetch, hmk]
        refine ⟨Or.inl (by simp [hs]), ?_⟩
        intro body hb
        simp at hb
      | ok rows =>
        obtain ⟨hrl, hro, hrq⟩ := mkInsertRows_spec qid qs 0 rows hmk
        have hro1 : rows.map (fun r => r.question_order) = List.range' 1 rows.length := by
          rw [hrl]
          simpa using hro
        have hnew : (insertRowsStore s rows).quiz_questions.length = 10 := by
          simp [insertRowsStore, hs, attachIds_length, hrl, hlen]
        cases hins : env.questionInsertErr with
        | some e =>
          simp only [insertAndFetch, hmk, hins]
          refine ⟨Or.inl (by simp [hs]), ?_⟩
          intro body hb
          simp at hb
        | none =>
          cases hfet : env.insertedFetchErr with
          | some e =>
            simp only [insertAndFetch, hmk, hins, hfet]
            refine ⟨Or.inr hnew, ?_⟩
            intro body hb
            simp at hb
          | none =>
            simp only [insertAndFetch, hmk, hins, hfet]
            refine ⟨Or.inr hnew, ?_⟩
            intro body hb
            have hbody : body = selectOrdered (insertRowsStore s rows) qid := by
              have := hb.symm
              simpa using this
            rw [hbody, selectOrdered_fresh s qid rows hs hrq hro1]
            constructor
            · simp [attachIds_length, hrl, hlen]
            · rw [List.map_map]
              rw [show ((fun q : QuestionOut => q.question_order) ∘
                  (fun r : QuestionRow =>
                    (⟨r.id, r.question, r.options, r.correct_answer,
                      r.question_order⟩ : QuestionOut))) =
                  (fun r : QuestionRow => r.question_order) from rfl]
              rw [attachIds_map_order, hro1, hrl, hlen]

/-- Witness for C2 on the empty store with a valid ten-element model
answer: the final store holds exactly 10 questions. -/
theorem c2_sequential_zero_or_ten_witness :
    genEnv.store.quiz_questions = [] ∧
    ((generateQuizHandler genEnv).store.quiz_questions.length = 0 ∨
      (generateQuizHandler genEnv).store.quiz_questions.length = 10) :=
  ⟨rfl, (c2_sequential_zero_or_ten genEnv rfl).1⟩

/-- C10: for every request and every combination of store and model
outcomes, the handler terminates with exactly one response, which is the
400 with the fixed domain message, a 500 with one of the two fixed
messages, or a 200 with a question array. -/
theorem c10_single_response_totality (env : Env) :
    wellFormedResponse (generateQuizHandler env).response ∧
    statusOf (generateQuizHandler env).response ∈ ([200, 400, 500] : List Nat) := by
  constructor
  · unfold generateQuizHandler
    cases hpre : handlerPre env with
    | done r s mc dbc => exact handlerPre_done_resp env r s mc dbc hpre
    | atModel qid s dbc =>
      unfold handlerPost
      cases hparse : parseModelOutput env.modelContent with
      | thrown m => exact Or.inl rfl
      | formatError => exact Or.inr rfl
      | okQs qs =>
        rcases hif : insertAndFetch s qid qs env.questionInsertErr env.insertedFetchErr
          with ⟨res, s2, db3⟩
        cases res with
        | error m =>
          simp only [hif]
          exact Or.inl rfl
        | ok body =>
          simp only [hif]
          trivial
  · cases hr : (generateQuizHandler env).response <;> simp [statusOf]

end SkillSage
